import Mathlib

/-!
# Session store adapter (`src/database.go`)

A shallow embedding of the Go package `database`: a thin adapter over the
MongoDB Go driver exposing `NewDatabase`, `CreateSession`, `ListSessions`,
`SetSessionUsername`, `SetSessionPassword` and `DeleteSession`.

The adapter functions are translated line by line from `src/database.go`.
The driver calls they make (`InsertOne`, `Find`, `Cursor.Next`,
`Cursor.Decode`, `UpdateOne`, `DeleteOne`, `Connect`, `Ping`) belong to an
external library; they are modelled here after the documented behaviour of
the driver, over an explicit server state, and every source of
nondeterminism (clock, generated object id, failing round trips) is an
explicit input of the call.
-/

namespace database

/-! ## Values, documents, errors -/

/-- A Go `error` value that is not nil. The adapter never inspects errors, so
a message is all that is kept. A Go `error` is modelled as `Option Err`, with
`none` for nil. -/
structure Err where
  msg : String
deriving DecidableEq, Repr

/-- The BSON values that occur in session documents: strings (all caller
supplied fields), 64 bit integers (`created_at`, the result of
`time.Now().Unix()`), and object ids (the `_id` the driver generates).
The session records have no array or embedded document fields, and none are
modelled. -/
inductive Value where
  | str (s : String)
  | int64 (n : Int)
  | objectID (n : Nat)
deriving DecidableEq, Repr

/-- The Go type `bson.M` (`map[string]interface{}`), also used for stored
documents: a list of key/value pairs read through `M.get`. -/
abbrev M := List (String × Value)

/-- Field lookup `m[k]`; `none` when the field is absent. -/
def M.get : M → String → Option Value
  | [], _ => none
  | (k', v) :: rest, k => if k' = k then some v else M.get rest k

/-- Field assignment: replaces the value of an existing field in place, or
adds the field when it is absent. -/
def M.set : M → String → Value → M
  | [], k, v => [(k, v)]
  | (k', v') :: rest, k, v => if k' = k then (k, v) :: rest else (k', v') :: M.set rest k v

/-- The field names of a document. -/
def M.keys (m : M) : List String := m.map Prod.fst

/-- An update document. The adapter only ever builds `bson.M{"$set": fields}`. -/
inductive Update where
  | set (fields : M)
deriving DecidableEq, Repr

/-! ## Handles -/

/-- The Go type `*mongo.Client`: identified by the URI it was built from. -/
structure Client where
  uri : String
deriving DecidableEq, Repr

/-- The Go type `*mongo.Database`: a client together with a database name. -/
structure DatabaseRef where
  client : Client
  name : String
deriving DecidableEq, Repr

/-- The Go type `*mongo.Collection`. -/
structure CollectionRef where
  db : DatabaseRef
  name : String
deriving DecidableEq, Repr

/-- The Go type `context.Context`, as far as the adapter builds one. -/
inductive Context where
  | background
  | withTimeout (seconds : Nat)
deriving DecidableEq, Repr

/-- The adapter: `type Database struct { client; db; context }`. -/
structure Database where
  client : Client
  db : DatabaseRef
  context : Context
deriving DecidableEq, Repr

/-- Driver call `client.Database(name)`. -/
def Client.Database (c : Client) (name : String) : DatabaseRef := ⟨c, name⟩

/-- Driver call `db.Collection(name)`. -/
def DatabaseRef.Collection (db : DatabaseRef) (name : String) : CollectionRef := ⟨db, name⟩

/-! ## Server state -/

/-- The state of the document store: for every database name and collection
name, the documents of that collection in natural (scan) order. -/
abbrev Server := String → String → List M

/-- The documents of a collection. -/
def Server.read (s : Server) (c : CollectionRef) : List M := s c.db.name c.name

/-- Replace the documents of one collection. -/
def Server.write (s : Server) (c : CollectionRef) (docs : List M) : Server :=
  fun dbName collName => if dbName = c.db.name ∧ collName = c.name then docs else s dbName collName

/-- Query filter semantics for the filters the adapter builds (a `bson.M` of
field/value pairs): a document matches when each listed field is present with
exactly that value. The empty filter matches every document. -/
def matchesFilter (filter : M) (doc : M) : Bool :=
  filter.all fun kv => decide (M.get doc kv.1 = some kv.2)

/-- Apply the `$set` operator: assign each listed field in turn. -/
def applySet (fields : M) (doc : M) : M :=
  fields.foldl (fun d kv => M.set d kv.1 kv.2) doc

/-- Apply an update document to a stored document. -/
def Update.apply : Update → M → M
  | .set fields, doc => applySet fields doc

/-- Update the first document (in natural order) that matches the filter, as
the server does for an update of one document. -/
def updateFirst (filter : M) (u : Update) : List M → List M
  | [] => []
  | doc :: rest =>
    if matchesFilter filter doc then u.apply doc :: rest
    else doc :: updateFirst filter u rest

/-- Remove the first document (in natural order) that matches the filter, as
the server does for a delete of one document. -/
def deleteFirst (filter : M) : List M → List M
  | [] => []
  | doc :: rest =>
    if matchesFilter filter doc then rest
    else doc :: deleteFirst filter rest

/-! ## Driver calls -/

/-- What the environment decides for one `InsertOne` call: the object id the
driver generates, and whether the round trip fails. -/
structure InsertEnv where
  oid : Nat
  fault : Option Err
deriving DecidableEq, Repr

/-- The error the server reports when the unique index on `_id` is violated. -/
def duplicateKey : Err := ⟨"E11000 duplicate key error"⟩

/-- Driver step of `InsertOne`: if the document has no `_id` field, one is
added automatically to the marshalled document. -/
def ensureID (oid : Nat) (doc : M) : M :=
  match M.get doc "_id" with
  | some _ => doc
  | none => ("_id", Value.objectID oid) :: doc

/-- Driver call `coll.InsertOne(ctx, doc)`, result value dropped. A failed
round trip leaves the collection as it was; otherwise the document (with its
`_id`) is appended to the collection, unless its `_id` is already taken. -/
def insertOne (s : Server) (c : CollectionRef) (e : InsertEnv) (doc : M) : Server × Option Err :=
  match e.fault with
  | some err => (s, some err)
  | none =>
    let stored := ensureID e.oid doc
    if (s.read c).any (fun old => decide (M.get old "_id" = M.get stored "_id")) then
      (s, some duplicateKey)
    else
      (s.write c (s.read c ++ [stored]), none)

/-- Driver call `coll.UpdateOne(ctx, filter, update)`, result value dropped:
at most one document is updated, and a filter that matches nothing succeeds. -/
def updateOne (s : Server) (c : CollectionRef) (fault : Option Err) (filter : M) (u : Update) :
    Server × Option Err :=
  match fault with
  | some err => (s, some err)
  | none => (s.write c (updateFirst filter u (s.read c)), none)

/-- Driver call `coll.DeleteOne(ctx, filter)`, result value dropped: at most
one document is deleted, and a filter that matches nothing succeeds. -/
def deleteOne (s : Server) (c : CollectionRef) (fault : Option Err) (filter : M) :
    Server × Option Err :=
  match fault with
  | some err => (s, some err)
  | none => (s.write c (deleteFirst filter (s.read c)), none)

/-- What the environment decides for one listing: whether the `Find` round
trip fails, whether `Next` fails while fetching record number `i` (`Next` then
returns false and the error is kept for `cursor.Err()`), and whether `Decode`
of record number `i` fails. -/
structure FindEnv where
  fault : Option Err
  nextFault : Nat → Option Err
  decodeFault : Nat → Option Err

/-- The Go type `*mongo.Cursor`: the records not yet visited, the number of
records already visited, and the environment of the listing. -/
structure Cursor where
  remaining : List M
  pos : Nat
  env : FindEnv

/-- Driver call `coll.Find(ctx, filter)`: a cursor over the matching
documents in natural order. The server state is not changed. -/
def find (s : Server) (c : CollectionRef) (e : FindEnv) (filter : M) :
    Server × Except Err Cursor :=
  match e.fault with
  | some err => (s, Except.error err)
  | none => (s, Except.ok ⟨(s.read c).filter (matchesFilter filter), 0, e⟩)

/-! ## Process level effects of `NewDatabase` -/

/-- What the environment decides for one `NewDatabase` call. -/
structure ConnectEnv where
  connectFault : Option Err
  pingFault : Option Err
deriving DecidableEq, Repr

/-- The observable steps of `NewDatabase`, in order. -/
inductive Event where
  | connect (ctx : Context) (uri : String)
  | ping (ctx : Context)
  | log (line : String)
deriving DecidableEq, Repr

/-- The Go type `time.Time`, as far as `Unix()` reads it. -/
structure Time where
  unixSeconds : Int
deriving DecidableEq, Repr

/-- The Go method `Time.Unix`. -/
def Time.Unix (t : Time) : Int := t.unixSeconds

/-! ## The adapter (`src/database.go`) -/

/-- Go function `NewDatabase` (lines 20 to 41). -/
def NewDatabase (e : ConnectEnv) (uri : String) (dbName : String) :
    (Option Database × Option Err) × List Event :=
  let ctx := Context.withTimeout 10
  match e.connectFault with
  | some err => ((none, some err), [Event.connect ctx uri])
  | none =>
    let client : Client := ⟨uri⟩
    match e.pingFault with
    | some err => ((none, some err), [Event.connect ctx uri, Event.ping ctx])
    | none =>
      ((some ⟨client, client.Database dbName, Context.background⟩, none),
        [Event.connect ctx uri, Event.ping ctx, Event.log ("Connected to MongoDB at " ++ uri)])

/-- Go method `CreateSession` (lines 44 to 55). `now` is the value of
`time.Now()` read by the call. -/
def CreateSession (d : Database) (s : Server) (now : Time) (e : InsertEnv)
    (sid phishlet landingURL userAgent remoteAddr : String) : Server × Option Err :=
  let session : M :=
    [("sid", Value.str sid),
     ("phishlet", Value.str phishlet),
     ("landing_url", Value.str landingURL),
     ("useragent", Value.str userAgent),
     ("remote_addr", Value.str remoteAddr),
     ("created_at", Value.int64 now.Unix)]
  insertOne s (d.db.Collection "sessions") e session

/-- The loop `for cursor.Next(ctx) { Decode; append }` of `ListSessions`
(lines 66 to 73), by recursion on the records the cursor still holds. When
`Next` returns false the loop ends, whether the cursor is exhausted or has
failed; `cursor.Err()` is not consulted. -/
def listLoop (e : FindEnv) : Nat → List M → List M → List M × Option Err
  | _, [], sessions => (sessions, none)
  | i, raw :: rest, sessions =>
    match e.nextFault i with
    | some _ => (sessions, none)
    | none =>
      match e.decodeFault i with
      | some err => ([], some err)
      | none => listLoop e (i + 1) rest (sessions ++ [raw])

/-- Go method `ListSessions` (lines 58 to 74). The result slice is a list; the
nil slice is the empty list. The deferred `cursor.Close` has no effect on the
server state or on the result and is left out. -/
def ListSessions (d : Database) (s : Server) (e : FindEnv) : Server × List M × Option Err :=
  match find s (d.db.Collection "sessions") e [] with
  | (s1, Except.error err) => (s1, [], some err)
  | (s1, Except.ok cursor) =>
    let r := listLoop cursor.env cursor.pos cursor.remaining []
    (s1, r.1, r.2)

/-- Go method `SetSessionUsername` (lines 77 to 82). -/
def SetSessionUsername (d : Database) (s : Server) (fault : Option Err)
    (sid : String) (username : String) : Server × Option Err :=
  let filter : M := [("sid", Value.str sid)]
  let update := Update.set [("username", Value.str username)]
  updateOne s (d.db.Collection "sessions") fault filter update

/-- Go method `SetSessionPassword` (lines 85 to 90). -/
def SetSessionPassword (d : Database) (s : Server) (fault : Option Err)
    (sid : String) (password : String) : Server × Option Err :=
  let filter : M := [("sid", Value.str sid)]
  let update := Update.set [("password", Value.str password)]
  updateOne s (d.db.Collection "sessions") fault filter update

/-- Go method `DeleteSession` (lines 93 to 97). -/
def DeleteSession (d : Database) (s : Server) (fault : Option Err) (sid : String) :
    Server × Option Err :=
  let filter : M := [("sid", Value.str sid)]
  deleteOne s (d.db.Collection "sessions") fault filter

/-! ## Vocabulary of the properties -/

/-- The documents of the `sessions` collection of the adapter's database. -/
def sessionsOf (d : Database) (s : Server) : List M := s.read (d.db.Collection "sessions")

/-- The document has `sid` as its `sid` field. -/
def hasSid (sid : String) (doc : M) : Prop := M.get doc "sid" = some (Value.str sid)

instance (sid : String) (doc : M) : Decidable (hasSid sid doc) := by
  unfold hasSid; infer_instance

/-- A listing environment in which nothing fails. -/
def FindEnv.healthy : FindEnv := ⟨none, fun _ => none, fun _ => none⟩

/-- The document that a successful `CreateSession` leaves in the store: the
six fields of the `session` map, preceded by the generated `_id`. -/
def storedSession (oid : Nat) (sid phishlet landingURL userAgent remoteAddr : String)
    (createdAt : Int) : M :=
  [("_id", Value.objectID oid),
   ("sid", Value.str sid),
   ("phishlet", Value.str phishlet),
   ("landing_url", Value.str landingURL),
   ("useragent", Value.str userAgent),
   ("remote_addr", Value.str remoteAddr),
   ("created_at", Value.int64 createdAt)]

/-- The effect of deleting the first document with the given sid: `before`
splits at its first document with that sid, and `after` is `before` without
that one document, everything else unchanged and in the same order. -/
def DeletesFirst (sid : String) (before after : List M) : Prop :=
  ∃ pre doc post, before = pre ++ doc :: post ∧ (∀ x ∈ pre, ¬ hasSid sid x) ∧ hasSid sid doc ∧
    after = pre ++ post

/-- The effect of setting one string field on the first document with the
given sid, if any: the number and order of documents is unchanged; when no
document has the sid nothing changes; otherwise only the first document with
that sid changes, and in it only the given field, which now holds `v`. -/
def SetsFieldOfFirst (sid field v : String) (before after : List M) : Prop :=
  after.length = before.length ∧
  ((∀ doc ∈ before, ¬ hasSid sid doc) → after = before) ∧
  (∀ pre doc post, before = pre ++ doc :: post → (∀ x ∈ pre, ¬ hasSid sid x) → hasSid sid doc →
    ∃ doc', after = pre ++ doc' :: post ∧
      M.get doc' field = some (Value.str v) ∧
      ∀ k, k ≠ field → M.get doc' k = M.get doc k)

/-! ## Concrete inputs -/

/-- An adapter as `NewDatabase "mongodb://localhost" "evil"` returns it. -/
def exampleDb : Database :=
  ⟨⟨"mongodb://localhost"⟩, ⟨⟨"mongodb://localhost"⟩, "evil"⟩, Context.background⟩

/-- A server on which every collection is empty. -/
def emptyServer : Server := fun _ _ => []

/-- Three stored sessions: one with sid `s0`, then two with sid `s1`. -/
def exampleDocs : List M :=
  [storedSession 1 "s0" "google" "https://l.example/a" "Mozilla/5.0" "10.0.0.1" 1700000000,
   storedSession 2 "s1" "google" "https://l.example/b" "Mozilla/5.0" "10.0.0.2" 1700000100,
   storedSession 3 "s1" "github" "https://l.example/c" "curl/8.0" "10.0.0.3" 1700000200]

/-- A server whose `evil.sessions` collection holds `exampleDocs`. -/
def exampleServer : Server :=
  emptyServer.write (exampleDb.db.Collection "sessions") exampleDocs

/-- A listing in which decoding record number 1 fails. -/
def decodeFailsAtOne : FindEnv :=
  ⟨none, fun _ => none, fun i => if i = 1 then some ⟨"bson: invalid document length"⟩ else none⟩

/-- A listing whose query fails. -/
def queryFails : FindEnv :=
  ⟨some ⟨"server selection timeout"⟩, fun _ => none, fun _ => none⟩

/-- One hundred and two stored sessions, numbered through their `_id`: one
more than the 101 documents a first reply batch holds by default. -/
def manyDocs : List M :=
  (List.range 102).map fun n =>
    storedSession n "s1" "google" "https://l.example/a" "Mozilla/5.0" "10.0.0.1" 1700000000

/-- A server whose `evil.sessions` collection holds `manyDocs`. -/
def manyServer : Server :=
  emptyServer.write (exampleDb.db.Collection "sessions") manyDocs

/-- A listing in which the query and the first 101 records are fine, and the
round trip that fetches the next batch (record number 101) fails. -/
def secondBatchFails : FindEnv :=
  ⟨none, fun i => if i = 101 then some ⟨"connection reset by peer"⟩ else none, fun _ => none⟩

/-- One hundred and one stored sessions with sid `s0`, numbered through their
`_id`: exactly one default first reply batch. -/
def olderDocs : List M :=
  (List.range 101).map fun n =>
    storedSession n "s0" "google" "https://l.example/a" "Mozilla/5.0" "10.0.0.1" 1700000000

/-- A server whose `evil.sessions` collection holds `olderDocs`. -/
def olderServer : Server :=
  emptyServer.write (exampleDb.db.Collection "sessions") olderDocs

/-- The state after `CreateSession "s1" ...` on `olderServer`. -/
def afterCreate : Server :=
  (CreateSession exampleDb olderServer ⟨1700000300⟩ ⟨200, none⟩
    "s1" "google" "https://l.example/d" "Mozilla/5.0" "10.0.0.4").1

/-- The state after `SetSessionUsername "s1" "alice"` on `afterCreate`. -/
def afterUsername : Server :=
  (SetSessionUsername exampleDb afterCreate none "s1" "alice").1

/-- The state after `SetSessionPassword "s1" "secret"` on `afterUsername`. -/
def afterPassword : Server :=
  (SetSessionPassword exampleDb afterUsername none "s1" "secret").1

/-- The state after a second `CreateSession "s1" ...`, with another phishlet,
on `afterCreate`. -/
def afterSecondCreate : Server :=
  (CreateSession exampleDb afterCreate ⟨1700000301⟩ ⟨201, none⟩
    "s1" "github" "https://l.example/e" "Mozilla/5.0" "10.0.0.4").1

/-! ## Lemmas on documents -/

theorem M.get_set_same (m : M) (k : String) (v : Value) : M.get (M.set m k v) k = some v := by
  induction m with
  | nil => simp [M.set, M.get]
  | cons kv rest ih =>
    obtain ⟨k', v'⟩ := kv
    by_cases h : k' = k
    · simp [M.set, M.get, h]
    · simp [M.set, M.get, h, ih]

theorem M.get_set_other (m : M) (k k' : String) (v : Value) (h : k' ≠ k) :
    M.get (M.set m k v) k' = M.get m k' := by
  induction m with
  | nil => simp [M.set, M.get, Ne.symm h]
  | cons kv rest ih =>
    obtain ⟨k0, v0⟩ := kv
    by_cases h0 : k0 = k
    · subst h0
      simp [M.set, M.get, Ne.symm h]
    · by_cases h1 : k0 = k'
      · subst h1
        simp [M.set, M.get, h0]
      · simp [M.set, M.get, h0, h1, ih]

theorem matchesFilter_nil (doc : M) : matchesFilter [] doc = true := rfl

theorem matchesFilter_sid (sid : String) (doc : M) :
    matchesFilter [("sid", Value.str sid)] doc = true ↔ hasSid sid doc := by
  simp [matchesFilter, hasSid]

theorem matchesFilter_sid_false (sid : String) (doc : M) :
    matchesFilter [("sid", Value.str sid)] doc = false ↔ ¬ hasSid sid doc := by
  simp [matchesFilter, hasSid]

/-! ## Lemmas on the server state -/

theorem Server.read_write (s : Server) (c : CollectionRef) (docs : List M) :
    (s.write c docs).read c = docs := by
  simp [Server.read, Server.write]

theorem Server.write_read (s : Server) (c : CollectionRef) : s.write c (s.read c) = s := by
  funext dbName collName
  simp only [Server.write, Server.read]
  split
  · next h => rw [h.1, h.2]
  · rfl

theorem filter_matches_nil (l : List M) : l.filter (matchesFilter []) = l := by
  induction l with
  | nil => rfl
  | cons a rest ih => simp [List.filter, matchesFilter_nil, ih]

/-! ## Lemmas on the first match -/

theorem updateFirst_no_match (filter : M) (u : Update) (l : List M)
    (h : ∀ x ∈ l, matchesFilter filter x = false) : updateFirst filter u l = l := by
  induction l with
  | nil => rfl
  | cons a rest ih =>
    have ha : matchesFilter filter a = false := h a (List.mem_cons_self _ _)
    have hr : ∀ x ∈ rest, matchesFilter filter x = false :=
      fun x hx => h x (List.mem_cons_of_mem _ hx)
    simp [updateFirst, ha, ih hr]

theorem deleteFirst_no_match (filter : M) (l : List M)
    (h : ∀ x ∈ l, matchesFilter filter x = false) : deleteFirst filter l = l := by
  induction l with
  | nil => rfl
  | cons a rest ih =>
    have ha : matchesFilter filter a = false := h a (List.mem_cons_self _ _)
    have hr : ∀ x ∈ rest, matchesFilter filter x = false :=
      fun x hx => h x (List.mem_cons_of_mem _ hx)
    simp [deleteFirst, ha, ih hr]

theorem updateFirst_split (filter : M) (u : Update) (pre : List M) (doc : M) (post : List M)
    (hpre : ∀ x ∈ pre, matchesFilter filter x = false) (hdoc : matchesFilter filter doc = true) :
    updateFirst filter u (pre ++ doc :: post) = pre ++ u.apply doc :: post := by
  induction pre with
  | nil => simp [updateFirst, hdoc]
  | cons a rest ih =>
    have ha : matchesFilter filter a = false := hpre a (List.mem_cons_self _ _)
    have hr : ∀ x ∈ rest, matchesFilter filter x = false :=
      fun x hx => hpre x (List.mem_cons_of_mem _ hx)
    simp [updateFirst, ha, ih hr]

theorem deleteFirst_split (filter : M) (pre : List M) (doc : M) (post : List M)
    (hpre : ∀ x ∈ pre, matchesFilter filter x = false) (hdoc : matchesFilter filter doc = true) :
    deleteFirst filter (pre ++ doc :: post) = pre ++ post := by
  induction pre with
  | nil => simp [deleteFirst, hdoc]
  | cons a rest ih =>
    have ha : matchesFilter filter a = false := hpre a (List.mem_cons_self _ _)
    have hr : ∀ x ∈ rest, matchesFilter filter x = false :=
      fun x hx => hpre x (List.mem_cons_of_mem _ hx)
    simp [deleteFirst, ha, ih hr]

theorem length_updateFirst (filter : M) (u : Update) (l : List M) :
    (updateFirst filter u l).length = l.length := by
  induction l with
  | nil => rfl
  | cons a rest ih =>
    by_cases ha : matchesFilter filter a = true
    · simp [updateFirst, ha]
    · simp [updateFirst, ha, ih]

/-- A list with a document of the given sid splits at the first such document. -/
theorem exists_first_sid (sid : String) (l : List M) (h : ∃ x ∈ l, hasSid sid x) :
    ∃ pre doc post, l = pre ++ doc :: post ∧ (∀ x ∈ pre, ¬ hasSid sid x) ∧ hasSid sid doc := by
  induction l with
  | nil => simp at h
  | cons a rest ih =>
    by_cases ha : hasSid sid a
    · exact ⟨[], a, rest, rfl, by simp, ha⟩
    · obtain ⟨x, hx, hxs⟩ := h
      have hxr : x ∈ rest := by
        rcases List.mem_cons.mp hx with hxa | hxr
        · exact absurd (hxa ▸ hxs) ha
        · exact hxr
      obtain ⟨pre, doc, post, hl, hpre, hdoc⟩ := ih ⟨x, hxr, hxs⟩
      refine ⟨a :: pre, doc, post, by simp [hl], ?_, hdoc⟩
      intro y hy
      rcases List.mem_cons.mp hy with hya | hyp
      · exact hya ▸ ha
      · exact hpre y hyp

/-! ## Lemmas on listing -/

theorem listLoop_healthy (e : FindEnv) (l : List M) :
    ∀ (i : Nat) (acc : List M),
      (∀ j, j < l.length → e.nextFault (i + j) = none) →
      (∀ j, j < l.length → e.decodeFault (i + j) = none) →
      listLoop e i l acc = (acc ++ l, none) := by
  induction l with
  | nil => intro i acc _ _; simp [listLoop]
  | cons a rest ih =>
    intro i acc hn hd
    have hn0 : e.nextFault i = none := by simpa using hn 0 (by simp)
    have hd0 : e.decodeFault i = none := by simpa using hd 0 (by simp)
    have hn1 : ∀ j, j < rest.length → e.nextFault (i + 1 + j) = none := by
      intro j hj
      have := hn (j + 1) (by simpa using hj)
      simpa [Nat.add_assoc, Nat.add_comm 1 j] using this
    have hd1 : ∀ j, j < rest.length → e.decodeFault (i + 1 + j) = none := by
      intro j hj
      have := hd (j + 1) (by simpa using hj)
      simpa [Nat.add_assoc, Nat.add_comm 1 j] using this
    simp [listLoop, hn0, hd0, ih (i + 1) (acc ++ [a]) hn1 hd1]

/-- With no failure on the way, `ListSessions` returns the collection. -/
theorem ListSessions_healthy (d : Database) (s : Server) (fe : FindEnv)
    (hq : fe.fault = none)
    (hn : ∀ i, i < (sessionsOf d s).length → fe.nextFault i = none)
    (hd : ∀ i, i < (sessionsOf d s).length → fe.decodeFault i = none) :
    ListSessions d s fe = (s, sessionsOf d s, none) := by
  have hloop := listLoop_healthy fe (sessionsOf d s) 0 []
    (by intro j hj; simpa using hn j hj) (by intro j hj; simpa using hd j hj)
  unfold sessionsOf at hloop
  simp [ListSessions, find, hq, filter_matches_nil, hloop, sessionsOf]

/-! ## Lemmas on the adapter operations -/

theorem sessionsOf_write (d : Database) (s : Server) (docs : List M) :
    sessionsOf d (s.write (d.db.Collection "sessions") docs) = docs := by
  simp [sessionsOf, Server.read_write]

theorem updateOne_success (s : Server) (c : CollectionRef) (fault : Option Err) (filter : M)
    (u : Update) (hok : (updateOne s c fault filter u).2 = none) :
    fault = none ∧
      (updateOne s c fault filter u).1 = s.write c (updateFirst filter u (s.read c)) := by
  cases fault with
  | none => simp [updateOne]
  | some err => simp [updateOne] at hok

theorem deleteOne_success (s : Server) (c : CollectionRef) (fault : Option Err) (filter : M)
    (hok : (deleteOne s c fault filter).2 = none) :
    fault = none ∧ (deleteOne s c fault filter).1 = s.write c (deleteFirst filter (s.read c)) := by
  cases fault with
  | none => simp [deleteOne]
  | some err => simp [deleteOne] at hok

/-- A successful `CreateSession` appends exactly one document, the session map
with the generated `_id` in front. -/
theorem CreateSession_success (d : Database) (s : Server) (now : Time) (e : InsertEnv)
    (sid phishlet landingURL userAgent remoteAddr : String)
    (hok : (CreateSession d s now e sid phishlet landingURL userAgent remoteAddr).2 = none) :
    sessionsOf d (CreateSession d s now e sid phishlet landingURL userAgent remoteAddr).1
      = sessionsOf d s ++ [storedSession e.oid sid phishlet landingURL userAgent remoteAddr now.Unix] := by
  unfold CreateSession insertOne at hok ⊢
  cases hf : e.fault with
  | some err => simp [hf] at hok
  | none =>
    simp only [hf] at hok ⊢
    split at hok
    · simp at hok
    · next hdup =>
      rw [if_neg hdup]
      simp [sessionsOf, Server.read_write, ensureID, M.get, storedSession]

theorem storedSession_hasSid (oid : Nat) (sid phishlet landingURL userAgent remoteAddr : String)
    (t : Int) : hasSid sid (storedSession oid sid phishlet landingURL userAgent remoteAddr t) := by
  simp [hasSid, storedSession, M.get]

/-- Whether `CreateSession` is accepted does not depend on the sid: only the
round trip and the generated `_id` decide. -/
theorem CreateSession_error_ignores_sid (d : Database) (s : Server) (now : Time) (e : InsertEnv)
    (sid sid0 phishlet landingURL userAgent remoteAddr : String) :
    (CreateSession d s now e sid0 phishlet landingURL userAgent remoteAddr).2
      = (CreateSession d s now e sid phishlet landingURL userAgent remoteAddr).2 := by
  unfold CreateSession insertOne
  cases hf : e.fault with
  | some err => rfl
  | none =>
    by_cases hdup : ((s.read (d.db.Collection "sessions")).any fun old =>
        decide (M.get old "_id" = some (Value.objectID e.oid))) = true
    · simp [ensureID, M.get, hdup]
    · simp [ensureID, M.get, hdup]

/-! ## C1: create, then list -/

/-- C1, as stated, fails. On an empty store, a successful
`CreateSession "s1" "google" ...` followed by a listing in which nothing
fails yields no record whose set of fields is exactly `sid`, `phishlet`,
`landing_url`, `useragent`, `remote_addr`, `created_at`: the one record that
is listed also carries the `_id` field added by `InsertOne`. -/
theorem C1_counterexample :
    (CreateSession exampleDb emptyServer ⟨1700000000⟩ ⟨7, none⟩
        "s1" "google" "https://l.example/a" "Mozilla/5.0" "10.0.0.1").2 = none ∧
    ¬ ∃ r ∈ (ListSessions exampleDb
              (CreateSession exampleDb emptyServer ⟨1700000000⟩ ⟨7, none⟩
                "s1" "google" "https://l.example/a" "Mozilla/5.0" "10.0.0.1").1
              FindEnv.healthy).2.1,
        (∀ k, k ∈ M.keys r ↔
          k ∈ ["sid", "phishlet", "landing_url", "useragent", "remote_addr", "created_at"]) ∧
        M.get r "sid" = some (Value.str "s1") ∧
        M.get r "phishlet" = some (Value.str "google") ∧
        M.get r "landing_url" = some (Value.str "https://l.example/a") ∧
        M.get r "useragent" = some (Value.str "Mozilla/5.0") ∧
        M.get r "remote_addr" = some (Value.str "10.0.0.1") ∧
        M.get r "created_at" = some (Value.int64 1700000000) := by
  refine ⟨by decide, ?_⟩
  have hlist : (ListSessions exampleDb
      (CreateSession exampleDb emptyServer ⟨1700000000⟩ ⟨7, none⟩
        "s1" "google" "https://l.example/a" "Mozilla/5.0" "10.0.0.1").1
      FindEnv.healthy).2.1
      = [storedSession 7 "s1" "google" "https://l.example/a" "Mozilla/5.0" "10.0.0.1"
          1700000000] := by decide
  rw [hlist]
  rintro ⟨r, hr, hkeys, -⟩
  rw [List.mem_singleton] at hr
  subst hr
  have hid : "_id" ∈ ["sid", "phishlet", "landing_url", "useragent", "remote_addr",
      "created_at"] := (hkeys "_id").mp (by decide)
  revert hid
  decide

/-- C1, amended. When `CreateSession` succeeds, a following `ListSessions` in
which nothing fails contains a record whose set of fields is exactly `_id`
(the object id generated for the insert), `sid`, `phishlet`, `landing_url`,
`useragent`, `remote_addr` (each equal to the corresponding argument) and
`created_at` (the integer `time.Now().Unix()` read by the call); that record
has no `username` and no `password` field. -/
theorem C1_create_then_list (d : Database) (s : Server) (now : Time) (e : InsertEnv)
    (sid phishlet landingURL userAgent remoteAddr : String) (fe : FindEnv)
    (hok : (CreateSession d s now e sid phishlet landingURL userAgent remoteAddr).2 = none)
    (hq : fe.fault = none) (hn : ∀ i, fe.nextFault i = none)
    (hd : ∀ i, fe.decodeFault i = none) :
    ∃ r ∈ (ListSessions d
              (CreateSession d s now e sid phishlet landingURL userAgent remoteAddr).1 fe).2.1,
      (∀ k, k ∈ M.keys r ↔
        k ∈ ["_id", "sid", "phishlet", "landing_url", "useragent", "remote_addr",
              "created_at"]) ∧
      M.get r "_id" = some (Value.objectID e.oid) ∧
      M.get r "sid" = some (Value.str sid) ∧
      M.get r "phishlet" = some (Value.str phishlet) ∧
      M.get r "landing_url" = some (Value.str landingURL) ∧
      M.get r "useragent" = some (Value.str userAgent) ∧
      M.get r "remote_addr" = some (Value.str remoteAddr) ∧
      M.get r "created_at" = some (Value.int64 now.Unix) ∧
      M.get r "username" = none ∧
      M.get r "password" = none := by
  rw [ListSessions_healthy d _ fe hq (fun i _ => hn i) (fun i _ => hd i)]
  rw [CreateSession_success d s now e sid phishlet landingURL userAgent remoteAddr hok]
  refine ⟨storedSession e.oid sid phishlet landingURL userAgent remoteAddr now.Unix,
    by simp, ?_⟩
  refine ⟨fun k => Iff.rfl, ?_⟩
  simp [storedSession, M.get]

/-- C1, amended, at a concrete input: an empty store and one `CreateSession`. -/
theorem C1_create_then_list_witness :
    (CreateSession exampleDb emptyServer ⟨1700000000⟩ ⟨7, none⟩
        "s1" "google" "https://l.example/a" "Mozilla/5.0" "10.0.0.1").2 = none ∧
    ∃ r ∈ (ListSessions exampleDb
              (CreateSession exampleDb emptyServer ⟨1700000000⟩ ⟨7, none⟩
                "s1" "google" "https://l.example/a" "Mozilla/5.0" "10.0.0.1").1
              FindEnv.healthy).2.1,
      (∀ k, k ∈ M.keys r ↔
        k ∈ ["_id", "sid", "phishlet", "landing_url", "useragent", "remote_addr",
              "created_at"]) ∧
      M.get r "_id" = some (Value.objectID 7) ∧
      M.get r "sid" = some (Value.str "s1") ∧
      M.get r "phishlet" = some (Value.str "google") ∧
      M.get r "landing_url" = some (Value.str "https://l.example/a") ∧
      M.get r "useragent" = some (Value.str "Mozilla/5.0") ∧
      M.get r "remote_addr" = some (Value.str "10.0.0.1") ∧
      M.get r "created_at" = some (Value.int64 1700000000) ∧
      M.get r "username" = none ∧
      M.get r "password" = none :=
  ⟨by decide,
   C1_create_then_list exampleDb emptyServer ⟨1700000000⟩ ⟨7, none⟩
     "s1" "google" "https://l.example/a" "Mozilla/5.0" "10.0.0.1" FindEnv.healthy
     (by decide) rfl (fun _ => rfl) (fun _ => rfl)⟩

/-! ## C2: unknown sid -/

/-- C2. When no stored session document has `sid` as its `sid` field and the
round trip succeeds, `SetSessionUsername`, `SetSessionPassword` and
`DeleteSession` each return a nil error and leave the whole server state, so
in particular the sessions collection, exactly as it was. -/
theorem C2_unknown_sid_is_noop (d : Database) (s : Server) (sid u p : String)
    (hnone : ∀ doc ∈ sessionsOf d s, ¬ hasSid sid doc) :
    SetSessionUsername d s none sid u = (s, none) ∧
    SetSessionPassword d s none sid p = (s, none) ∧
    DeleteSession d s none sid = (s, none) := by
  have hfalse : ∀ x ∈ s.read (d.db.Collection "sessions"),
      matchesFilter [("sid", Value.str sid)] x = false :=
    fun x hx => (matchesFilter_sid_false sid x).mpr (hnone x hx)
  refine ⟨?_, ?_, ?_⟩
  · simp only [SetSessionUsername, updateOne]
    rw [updateFirst_no_match _ _ _ hfalse, Server.write_read]
  · simp only [SetSessionPassword, updateOne]
    rw [updateFirst_no_match _ _ _ hfalse, Server.write_read]
  · simp only [DeleteSession, deleteOne]
    rw [deleteFirst_no_match _ _ hfalse, Server.write_read]

/-- C2 at a concrete input: a store with sessions `s0`, `s1`, `s1` and the
unknown sid `unknown-sid`. -/
theorem C2_unknown_sid_is_noop_witness :
    (∀ doc ∈ sessionsOf exampleDb exampleServer, ¬ hasSid "unknown-sid" doc) ∧
    SetSessionUsername exampleDb exampleServer none "unknown-sid" "bob" = (exampleServer, none) ∧
    SetSessionPassword exampleDb exampleServer none "unknown-sid" "hunter2"
      = (exampleServer, none) ∧
    DeleteSession exampleDb exampleServer none "unknown-sid" = (exampleServer, none) :=
  ⟨by decide,
   C2_unknown_sid_is_noop exampleDb exampleServer "unknown-sid" "bob" "hunter2" (by decide)⟩

/-! ## Success of the setters and of the delete -/

theorem apply_set_single (k : String) (v : Value) (doc : M) :
    (Update.set [(k, v)]).apply doc = M.set doc k v := rfl

theorem SetSessionUsername_success (d : Database) (s : Server) (fault : Option Err)
    (sid v : String) (hok : (SetSessionUsername d s fault sid v).2 = none) :
    sessionsOf d (SetSessionUsername d s fault sid v).1
      = updateFirst [("sid", Value.str sid)] (Update.set [("username", Value.str v)])
          (sessionsOf d s) := by
  unfold SetSessionUsername at hok ⊢
  rw [(updateOne_success _ _ _ _ _ hok).2, sessionsOf_write]
  rfl

theorem SetSessionPassword_success (d : Database) (s : Server) (fault : Option Err)
    (sid v : String) (hok : (SetSessionPassword d s fault sid v).2 = none) :
    sessionsOf d (SetSessionPassword d s fault sid v).1
      = updateFirst [("sid", Value.str sid)] (Update.set [("password", Value.str v)])
          (sessionsOf d s) := by
  unfold SetSessionPassword at hok ⊢
  rw [(updateOne_success _ _ _ _ _ hok).2, sessionsOf_write]
  rfl

theorem DeleteSession_success (d : Database) (s : Server) (fault : Option Err)
    (sid : String) (hok : (DeleteSession d s fault sid).2 = none) :
    sessionsOf d (DeleteSession d s fault sid).1
      = deleteFirst [("sid", Value.str sid)] (sessionsOf d s) := by
  unfold DeleteSession at hok ⊢
  rw [(deleteOne_success _ _ _ _ hok).2, sessionsOf_write]
  rfl

theorem no_sid_matches_false (sid : String) (l : List M) (h : ∀ x ∈ l, ¬ hasSid sid x) :
    ∀ x ∈ l, matchesFilter [("sid", Value.str sid)] x = false :=
  fun x hx => (matchesFilter_sid_false sid x).mpr (h x hx)

theorem filter_sid_eq_nil (sid : String) (l : List M) (h : ∀ x ∈ l, ¬ hasSid sid x) :
    l.filter (fun x => decide (hasSid sid x)) = [] := by
  rw [List.filter_eq_nil_iff]
  intro x hx
  simpa using h x hx

theorem countP_sid_eq_zero (sid : String) (l : List M) (h : ∀ x ∈ l, ¬ hasSid sid x) :
    l.countP (fun x => decide (hasSid sid x)) = 0 := by
  rw [List.countP_eq_zero]
  intro x hx
  simpa using h x hx

/-- Whatever fails, the records a listing returns are documents of the collection. -/
theorem listLoop_mem (e : FindEnv) (l : List M) :
    ∀ (i : Nat) (acc : List M) (r : M), r ∈ (listLoop e i l acc).1 → r ∈ acc ∨ r ∈ l := by
  induction l with
  | nil => intro i acc r hr; exact Or.inl (by simpa [listLoop] using hr)
  | cons a rest ih =>
    intro i acc r hr
    unfold listLoop at hr
    cases hn : e.nextFault i with
    | some err =>
      simp only [hn] at hr
      exact Or.inl hr
    | none =>
      cases hd : e.decodeFault i with
      | some err =>
        simp [hn, hd] at hr
      | none =>
        simp only [hn, hd] at hr
        rcases ih (i + 1) (acc ++ [a]) r hr with h | h
        · rcases List.mem_append.mp h with h1 | h1
          · exact Or.inl h1
          · exact Or.inr (by simp at h1; simp [h1])
        · exact Or.inr (List.mem_cons_of_mem _ h)

theorem ListSessions_mem (d : Database) (s : Server) (fe : FindEnv) (r : M)
    (hr : r ∈ (ListSessions d s fe).2.1) : r ∈ sessionsOf d s := by
  unfold ListSessions find at hr
  cases hq : fe.fault with
  | some err => simp [hq] at hr
  | none =>
    simp only [hq, filter_matches_nil] at hr
    rcases listLoop_mem fe _ 0 [] r hr with h | h
    · simp at h
    · exact h

/-! ## C3: create, set username, set password, list -/

/-- C3, as stated, fails: it does not ask the listing to succeed. The store
holds 101 sessions with sid `s0` and none with `s1`; `CreateSession "s1"`,
`SetSessionUsername "s1" "alice"` and `SetSessionPassword "s1" "secret"` all
succeed. A listing whose query fails returns an error and no record at all;
and a listing in which the fetch of record number 101 fails returns a nil
error and 101 records, none of which has sid `s1`. In neither listing is there
exactly one record with sid `s1`. -/
theorem C3_counterexample :
    (∀ doc ∈ sessionsOf exampleDb olderServer, ¬ hasSid "s1" doc) ∧
    (CreateSession exampleDb olderServer ⟨1700000300⟩ ⟨200, none⟩
        "s1" "google" "https://l.example/d" "Mozilla/5.0" "10.0.0.4").2 = none ∧
    (SetSessionUsername exampleDb afterCreate none "s1" "alice").2 = none ∧
    (SetSessionPassword exampleDb afterUsername none "s1" "secret").2 = none ∧
    (ListSessions exampleDb afterPassword queryFails).2
      = ([], some ⟨"server selection timeout"⟩) ∧
    (ListSessions exampleDb afterPassword secondBatchFails).2.2 = none ∧
    (ListSessions exampleDb afterPassword secondBatchFails).2.1.length = 101 ∧
    (¬ ∃ r, (ListSessions exampleDb afterPassword secondBatchFails).2.1.filter
              (fun x => decide (hasSid "s1" x)) = [r]) ∧
    (¬ ∃ r, (ListSessions exampleDb afterPassword queryFails).2.1.filter
              (fun x => decide (hasSid "s1" x)) = [r]) := by
  have hnone : (ListSessions exampleDb afterPassword secondBatchFails).2.1.filter
      (fun x => decide (hasSid "s1" x)) = [] := by decide
  have hnone0 : (ListSessions exampleDb afterPassword queryFails).2.1.filter
      (fun x => decide (hasSid "s1" x)) = [] := by decide
  refine ⟨by decide, by decide, by decide, by decide, by decide, by decide, by decide, ?_, ?_⟩
  · rintro ⟨r, hr⟩
    rw [hnone] at hr
    exact List.noConfusion hr
  · rintro ⟨r, hr⟩
    rw [hnone0] at hr
    exact List.noConfusion hr

/-- C3, amended (for any sid, username and password; the claim is the instance
`s1`, `alice`, `secret`). Starting from a store with no record of the sid,
after `CreateSession`, `SetSessionUsername` and `SetSessionPassword`, all
succeeding, a listing in which the query, every fetch and every decode
succeed contains exactly one record with that sid; it has the given username
and password, and `phishlet`, `landing_url`, `useragent`, `remote_addr` and
`created_at` as written by `CreateSession`. -/
theorem C3_create_set_set_list (d : Database) (s : Server) (now : Time) (e : InsertEnv)
    (f1 f2 : Option Err) (fe : FindEnv)
    (sid phishlet landingURL userAgent remoteAddr username password : String)
    (hfresh : ∀ doc ∈ sessionsOf d s, ¬ hasSid sid doc)
    (h1 : (CreateSession d s now e sid phishlet landingURL userAgent remoteAddr).2 = none)
    (h2 : (SetSessionUsername d
            (CreateSession d s now e sid phishlet landingURL userAgent remoteAddr).1
            f1 sid username).2 = none)
    (h3 : (SetSessionPassword d
            (SetSessionUsername d
              (CreateSession d s now e sid phishlet landingURL userAgent remoteAddr).1
              f1 sid username).1
            f2 sid password).2 = none)
    (hq : fe.fault = none) (hn : ∀ i, fe.nextFault i = none)
    (hd : ∀ i, fe.decodeFault i = none) :
    ∃ r,
      (ListSessions d
          (SetSessionPassword d
            (SetSessionUsername d
              (CreateSession d s now e sid phishlet landingURL userAgent remoteAddr).1
              f1 sid username).1
            f2 sid password).1 fe).2.1.filter (fun x => decide (hasSid sid x)) = [r] ∧
      M.get r "username" = some (Value.str username) ∧
      M.get r "password" = some (Value.str password) ∧
      M.get r "phishlet" = some (Value.str phishlet) ∧
      M.get r "landing_url" = some (Value.str landingURL) ∧
      M.get r "useragent" = some (Value.str userAgent) ∧
      M.get r "remote_addr" = some (Value.str remoteAddr) ∧
      M.get r "created_at" = some (Value.int64 now.Unix) := by
  have hpre := no_sid_matches_false sid _ hfresh
  have e1 := CreateSession_success d s now e sid phishlet landingURL userAgent remoteAddr h1
  have e2 := SetSessionUsername_success d _ f1 sid username h2
  rw [e1, updateFirst_split _ _ _ _ [] hpre
    ((matchesFilter_sid sid _).mpr (storedSession_hasSid _ _ _ _ _ _ _)), apply_set_single] at e2
  have hsid2 : hasSid sid
      (M.set (storedSession e.oid sid phishlet landingURL userAgent remoteAddr now.Unix)
        "username" (Value.str username)) := by
    simp [hasSid, storedSession, M.set, M.get]
  have e3 := SetSessionPassword_success d _ f2 sid password h3
  rw [e2, updateFirst_split _ _ _ _ [] hpre ((matchesFilter_sid sid _).mpr hsid2),
    apply_set_single] at e3
  rw [ListSessions_healthy d _ fe hq (fun i _ => hn i) (fun i _ => hd i), e3]
  refine ⟨M.set (M.set (storedSession e.oid sid phishlet landingURL userAgent remoteAddr now.Unix)
    "username" (Value.str username)) "password" (Value.str password), ?_, ?_⟩
  · show List.filter _ (_ ++ _) = _
    rw [List.filter_append, filter_sid_eq_nil sid _ hfresh]
    simp [hasSid, storedSession, M.set, M.get]
  · simp [storedSession, M.set, M.get]

/-- C3, amended, at the input of the claim: an empty store, `s1`, `alice`,
`secret`, and a listing in which nothing fails. -/
theorem C3_create_set_set_list_witness :
    ∃ r,
      (ListSessions exampleDb
          (SetSessionPassword exampleDb
            (SetSessionUsername exampleDb
              (CreateSession exampleDb emptyServer ⟨1700000000⟩ ⟨7, none⟩
                "s1" "google" "https://l.example/a" "Mozilla/5.0" "10.0.0.1").1
              none "s1" "alice").1
            none "s1" "secret").1 FindEnv.healthy).2.1.filter
          (fun x => decide (hasSid "s1" x)) = [r] ∧
      M.get r "username" = some (Value.str "alice") ∧
      M.get r "password" = some (Value.str "secret") ∧
      M.get r "phishlet" = some (Value.str "google") ∧
      M.get r "landing_url" = some (Value.str "https://l.example/a") ∧
      M.get r "useragent" = some (Value.str "Mozilla/5.0") ∧
      M.get r "remote_addr" = some (Value.str "10.0.0.1") ∧
      M.get r "created_at" = some (Value.int64 1700000000) :=
  C3_create_set_set_list exampleDb emptyServer ⟨1700000000⟩ ⟨7, none⟩ none none FindEnv.healthy
    "s1" "google" "https://l.example/a" "Mozilla/5.0" "10.0.0.1" "alice" "secret"
    (by decide) (by decide) (by decide) (by decide) rfl (fun _ => rfl) (fun _ => rfl)

/-! ## C4: delete -/

/-- C4. When at least one stored document has the sid, a successful
`DeleteSession` removes exactly the first such document and leaves every other
document unchanged and in the same order; the number of documents with that
sid drops by one; and when exactly one document had the sid, no listing
afterwards contains a record with that sid. -/
theorem C4_delete_removes_first (d : Database) (s : Server) (fault : Option Err) (sid : String)
    (hex : ∃ doc ∈ sessionsOf d s, hasSid sid doc)
    (hok : (DeleteSession d s fault sid).2 = none) :
    DeletesFirst sid (sessionsOf d s) (sessionsOf d (DeleteSession d s fault sid).1) ∧
    (sessionsOf d (DeleteSession d s fault sid).1).countP (fun x => decide (hasSid sid x)) + 1
      = (sessionsOf d s).countP (fun x => decide (hasSid sid x)) ∧
    ((sessionsOf d s).countP (fun x => decide (hasSid sid x)) = 1 →
      ∀ fe : FindEnv, ∀ r ∈ (ListSessions d (DeleteSession d s fault sid).1 fe).2.1,
        ¬ hasSid sid r) := by
  obtain ⟨pre, doc, post, hsplit, hpre, hdoc⟩ := exists_first_sid sid _ hex
  have hafter : sessionsOf d (DeleteSession d s fault sid).1 = pre ++ post := by
    rw [DeleteSession_success d s fault sid hok, hsplit]
    exact deleteFirst_split _ pre doc post (no_sid_matches_false sid pre hpre)
      ((matchesFilter_sid sid doc).mpr hdoc)
  have hcount : (pre ++ post).countP (fun x => decide (hasSid sid x)) + 1
      = (pre ++ doc :: post).countP (fun x => decide (hasSid sid x)) := by
    simp [List.countP_append, List.countP_cons, hdoc]
    omega
  refine ⟨⟨pre, doc, post, hsplit, hpre, hdoc, hafter⟩, ?_, ?_⟩
  · rw [hafter, hsplit]
    exact hcount
  · intro hone fe r hr hrs
    have hmem := ListSessions_mem d _ fe r hr
    rw [hafter] at hmem
    rw [hsplit] at hone
    have hzero : (pre ++ post).countP (fun x => decide (hasSid sid x)) = 0 := by omega
    rw [List.countP_eq_zero] at hzero
    exact absurd hrs (by simpa using hzero r hmem)

/-- C4 at a concrete input: sessions `s0`, `s1`, `s1`, deleting `s1`. -/
theorem C4_delete_removes_first_witness :
    (∃ doc ∈ sessionsOf exampleDb exampleServer, hasSid "s1" doc) ∧
    (DeleteSession exampleDb exampleServer none "s1").2 = none ∧
    DeletesFirst "s1" (sessionsOf exampleDb exampleServer)
      (sessionsOf exampleDb (DeleteSession exampleDb exampleServer none "s1").1) ∧
    (sessionsOf exampleDb (DeleteSession exampleDb exampleServer none "s1").1).countP
        (fun x => decide (hasSid "s1" x)) + 1
      = (sessionsOf exampleDb exampleServer).countP (fun x => decide (hasSid "s1" x)) :=
  ⟨by decide, by decide,
   (C4_delete_removes_first exampleDb exampleServer none "s1" (by decide) (by decide)).1,
   (C4_delete_removes_first exampleDb exampleServer none "s1" (by decide) (by decide)).2.1⟩

/-! ## C5: two sessions with one sid -/

/-- C5, as stated, fails: it does not ask the listing to succeed. The store
holds 101 sessions with sid `s0`; two `CreateSession "s1"` calls with
phishlets `google` and `github` both succeed. A listing whose query fails
returns an error and no record at all; and a listing in which the fetch of
record number 101 fails returns a nil error and 101 records, none of which
has sid `s1`. Neither listing contains a record with that sid. -/
theorem C5_counterexample :
    (CreateSession exampleDb olderServer ⟨1700000300⟩ ⟨200, none⟩
        "s1" "google" "https://l.example/d" "Mozilla/5.0" "10.0.0.4").2 = none ∧
    (CreateSession exampleDb afterCreate ⟨1700000301⟩ ⟨201, none⟩
        "s1" "github" "https://l.example/e" "Mozilla/5.0" "10.0.0.4").2 = none ∧
    (ListSessions exampleDb afterSecondCreate queryFails).2
      = ([], some ⟨"server selection timeout"⟩) ∧
    (ListSessions exampleDb afterSecondCreate secondBatchFails).2.2 = none ∧
    (ListSessions exampleDb afterSecondCreate secondBatchFails).2.1.length = 101 ∧
    (¬ ∃ r ∈ (ListSessions exampleDb afterSecondCreate secondBatchFails).2.1, hasSid "s1" r) ∧
    (¬ ∃ r ∈ (ListSessions exampleDb afterSecondCreate queryFails).2.1, hasSid "s1" r) := by
  refine ⟨by decide, by decide, by decide, by decide, by decide, by decide, by decide⟩

/-- C5, amended. Two successful `CreateSession` calls with the same sid and
different phishlets grow the collection by exactly two documents: the
collection is then the documents present before, unchanged and in order,
followed by a record with that sid and the first phishlet and a distinct
record with that sid and the second phishlet, and a listing in which the
query, every fetch and every decode succeed returns exactly that. Whether the
two calls are accepted does not depend on the sid: with any other sid in its
place they succeed as well. -/
theorem C5_same_sid_twice (d : Database) (s : Server) (now1 now2 : Time) (e1 e2 : InsertEnv)
    (sid p1 p2 l1 u1 a1 l2 u2 a2 : String)
    (hne : p1 ≠ p2)
    (h1 : (CreateSession d s now1 e1 sid p1 l1 u1 a1).2 = none)
    (h2 : (CreateSession d (CreateSession d s now1 e1 sid p1 l1 u1 a1).1
            now2 e2 sid p2 l2 u2 a2).2 = none) :
    ∃ r1 r2,
      sessionsOf d
          (CreateSession d (CreateSession d s now1 e1 sid p1 l1 u1 a1).1
            now2 e2 sid p2 l2 u2 a2).1
        = sessionsOf d s ++ [r1, r2] ∧
      hasSid sid r1 ∧ M.get r1 "phishlet" = some (Value.str p1) ∧
      hasSid sid r2 ∧ M.get r2 "phishlet" = some (Value.str p2) ∧
      r1 ≠ r2 ∧
      (sessionsOf d
          (CreateSession d (CreateSession d s now1 e1 sid p1 l1 u1 a1).1
            now2 e2 sid p2 l2 u2 a2).1).length
        = (sessionsOf d s).length + 2 ∧
      (∀ fe : FindEnv, fe.fault = none → (∀ i, fe.nextFault i = none) →
        (∀ i, fe.decodeFault i = none) →
        (ListSessions d
            (CreateSession d (CreateSession d s now1 e1 sid p1 l1 u1 a1).1
              now2 e2 sid p2 l2 u2 a2).1 fe).2
          = (sessionsOf d s ++ [r1, r2], none)) ∧
      (∀ sid0 : String,
        (CreateSession d s now1 e1 sid0 p1 l1 u1 a1).2 = none ∧
        (CreateSession d (CreateSession d s now1 e1 sid p1 l1 u1 a1).1
            now2 e2 sid0 p2 l2 u2 a2).2 = none) := by
  have e1' := CreateSession_success d s now1 e1 sid p1 l1 u1 a1 h1
  have e2' := CreateSession_success d _ now2 e2 sid p2 l2 u2 a2 h2
  rw [e1', List.append_assoc] at e2'
  refine ⟨storedSession e1.oid sid p1 l1 u1 a1 now1.Unix,
    storedSession e2.oid sid p2 l2 u2 a2 now2.Unix, e2',
    storedSession_hasSid _ _ _ _ _ _ _, by simp [storedSession, M.get],
    storedSession_hasSid _ _ _ _ _ _ _, by simp [storedSession, M.get], ?_, ?_, ?_, ?_⟩
  · intro heq
    have hp : M.get (storedSession e1.oid sid p1 l1 u1 a1 now1.Unix) "phishlet"
        = M.get (storedSession e2.oid sid p2 l2 u2 a2 now2.Unix) "phishlet" := by rw [heq]
    simp [storedSession, M.get] at hp
    exact hne hp
  · rw [e2']
    simp
  · intro fe hq hn hd
    rw [ListSessions_healthy d _ fe hq (fun i _ => hn i) (fun i _ => hd i), e2']
    rfl
  · intro sid0
    exact ⟨(CreateSession_error_ignores_sid d s now1 e1 sid sid0 p1 l1 u1 a1).trans h1,
      (CreateSession_error_ignores_sid d _ now2 e2 sid sid0 p2 l2 u2 a2).trans h2⟩

/-- C5, amended, at a concrete input: a store that already holds sessions
`s0`, `s1`, `s1`, two more `CreateSession "s1"` calls, and a listing in which
nothing fails. -/
theorem C5_same_sid_twice_witness :
    (CreateSession exampleDb exampleServer ⟨1700000300⟩ ⟨10, none⟩
        "s1" "google" "https://l.example/d" "Mozilla/5.0" "10.0.0.4").2 = none ∧
    (CreateSession exampleDb
        (CreateSession exampleDb exampleServer ⟨1700000300⟩ ⟨10, none⟩
          "s1" "google" "https://l.example/d" "Mozilla/5.0" "10.0.0.4").1
        ⟨1700000301⟩ ⟨11, none⟩
        "s1" "github" "https://l.example/e" "Mozilla/5.0" "10.0.0.4").2 = none ∧
    ∃ r1 r2,
      (ListSessions exampleDb
          (CreateSession exampleDb
            (CreateSession exampleDb exampleServer ⟨1700000300⟩ ⟨10, none⟩
              "s1" "google" "https://l.example/d" "Mozilla/5.0" "10.0.0.4").1
            ⟨1700000301⟩ ⟨11, none⟩
            "s1" "github" "https://l.example/e" "Mozilla/5.0" "10.0.0.4").1 FindEnv.healthy).2
        = (sessionsOf exampleDb exampleServer ++ [r1, r2], none) ∧
      hasSid "s1" r1 ∧ M.get r1 "phishlet" = some (Value.str "google") ∧
      hasSid "s1" r2 ∧ M.get r2 "phishlet" = some (Value.str "github") ∧
      r1 ≠ r2 := by
  obtain ⟨r1, r2, -, hs1, hp1, hs2, hp2, hne, -, hlist, -⟩ :=
    C5_same_sid_twice exampleDb exampleServer ⟨1700000300⟩ ⟨1700000301⟩ ⟨10, none⟩ ⟨11, none⟩
      "s1" "google" "github" "https://l.example/d" "Mozilla/5.0" "10.0.0.4"
      "https://l.example/e" "Mozilla/5.0" "10.0.0.4" (by decide) (by decide) (by decide)
  exact ⟨by decide, by decide, r1, r2, hlist FindEnv.healthy rfl (fun _ => rfl) (fun _ => rfl),
    hs1, hp1, hs2, hp2, hne⟩

/-! ## C6: frame of the setters -/

theorem updateFirst_setsField (sid field v : String) (before : List M) :
    SetsFieldOfFirst sid field v before
      (updateFirst [("sid", Value.str sid)] (Update.set [(field, Value.str v)]) before) := by
  refine ⟨length_updateFirst _ _ _, ?_, ?_⟩
  · intro hnone
    exact updateFirst_no_match _ _ _ (no_sid_matches_false sid before hnone)
  · intro pre doc post hsplit hpre hdoc
    refine ⟨M.set doc field (Value.str v), ?_, M.get_set_same _ _ _, ?_⟩
    · rw [hsplit, updateFirst_split _ _ pre doc post (no_sid_matches_false sid pre hpre)
        ((matchesFilter_sid sid doc).mpr hdoc), apply_set_single]
    · intro k hk
      exact M.get_set_other _ _ _ _ hk

/-- C6. A successful `SetSessionUsername sid v` keeps the number and order of
documents, changes nothing when no document has the sid, and otherwise changes
only the first document with that sid: its `username` becomes `v` (added when
absent) and every other field of it keeps its value; all other documents,
later ones with the same sid included, are unchanged. The same holds for
`SetSessionPassword` and the `password` field. -/
theorem C6_setters_change_one_field (d : Database) (s : Server) (fault : Option Err)
    (sid v : String) :
    ((SetSessionUsername d s fault sid v).2 = none →
      SetsFieldOfFirst sid "username" v (sessionsOf d s)
        (sessionsOf d (SetSessionUsername d s fault sid v).1)) ∧
    ((SetSessionPassword d s fault sid v).2 = none →
      SetsFieldOfFirst sid "password" v (sessionsOf d s)
        (sessionsOf d (SetSessionPassword d s fault sid v).1)) := by
  constructor
  · intro hok
    rw [SetSessionUsername_success d s fault sid v hok]
    exact updateFirst_setsField sid "username" v _
  · intro hok
    rw [SetSessionPassword_success d s fault sid v hok]
    exact updateFirst_setsField sid "password" v _

/-- C6 at a concrete input: sessions `s0`, `s1`, `s1`, setting fields of `s1`. -/
theorem C6_setters_change_one_field_witness :
    ((SetSessionUsername exampleDb exampleServer none "s1" "alice").2 = none ∧
      SetsFieldOfFirst "s1" "username" "alice" (sessionsOf exampleDb exampleServer)
        (sessionsOf exampleDb (SetSessionUsername exampleDb exampleServer none "s1" "alice").1)) ∧
    ((SetSessionPassword exampleDb exampleServer none "s1" "alice").2 = none ∧
      SetsFieldOfFirst "s1" "password" "alice" (sessionsOf exampleDb exampleServer)
        (sessionsOf exampleDb (SetSessionPassword exampleDb exampleServer none "s1" "alice").1)) :=
  ⟨⟨by decide, (C6_setters_change_one_field exampleDb exampleServer none "s1" "alice").1
      (by decide)⟩,
   ⟨by decide, (C6_setters_change_one_field exampleDb exampleServer none "s1" "alice").2
      (by decide)⟩⟩

/-! ## C7: listing -/

/-- C7. When the query succeeds and, for every document of the collection,
fetching it and decoding it succeed, `ListSessions` returns a nil error and
exactly the documents of the sessions collection, each once, with the fields
they are stored with, in store order; the result is as long as the collection,
and the server state is unchanged. -/
theorem C7_list_returns_collection (d : Database) (s : Server) (fe : FindEnv)
    (hq : fe.fault = none)
    (hn : ∀ i, i < (sessionsOf d s).length → fe.nextFault i = none)
    (hd : ∀ i, i < (sessionsOf d s).length → fe.decodeFault i = none) :
    ListSessions d s fe = (s, sessionsOf d s, none) ∧
    (ListSessions d s fe).2.1.length = (sessionsOf d s).length := by
  have h := ListSessions_healthy d s fe hq hn hd
  exact ⟨h, by rw [h]⟩

/-- C7 at a concrete input: sessions `s0`, `s1`, `s1`. -/
theorem C7_list_returns_collection_witness :
    ListSessions exampleDb exampleServer FindEnv.healthy = (exampleServer, exampleDocs, none) ∧
    (ListSessions exampleDb exampleServer FindEnv.healthy).2.1.length = 3 :=
  C7_list_returns_collection exampleDb exampleServer FindEnv.healthy rfl
    (fun _ _ => rfl) (fun _ _ => rfl)

/-! ## C8: a failing decode, a failing query -/

theorem listLoop_decode_fails (e : FindEnv) (err : Err) (l : List M) :
    ∀ (n i : Nat) (acc : List M), n < l.length →
      (∀ j, j < n → e.nextFault (i + j) = none ∧ e.decodeFault (i + j) = none) →
      e.nextFault (i + n) = none → e.decodeFault (i + n) = some err →
      listLoop e i l acc = ([], some err) := by
  induction l with
  | nil => intro n i acc hlen; simp at hlen
  | cons a rest ih =>
    intro n i acc hlen hprev hnext hdec
    cases n with
    | zero =>
      simp only [Nat.add_zero] at hnext hdec
      simp [listLoop, hnext, hdec]
    | succ m =>
      have h0 := hprev 0 (Nat.succ_pos m)
      simp only [Nat.add_zero] at h0
      have hlen1 : m < rest.length := by simpa using hlen
      have hprev1 : ∀ j, j < m →
          e.nextFault (i + 1 + j) = none ∧ e.decodeFault (i + 1 + j) = none := by
        intro j hj
        have := hprev (j + 1) (by omega)
        simpa [Nat.add_assoc, Nat.add_comm 1 j] using this
      have hnext1 : e.nextFault (i + 1 + m) = none := by
        simpa [Nat.add_assoc, Nat.add_comm 1 m] using hnext
      have hdec1 : e.decodeFault (i + 1 + m) = some err := by
        simpa [Nat.add_assoc, Nat.add_comm 1 m] using hdec
      simp [listLoop, h0.1, h0.2, ih m (i + 1) (acc ++ [a]) hlen1 hprev1 hnext1 hdec1]

/-- C8. If record number `i` of the collection is reached (the query and all
earlier fetches and decodes succeed, and record `i` is fetched) and decoding
it fails, `ListSessions` returns that decode error and the nil slice, not the
`i` records already decoded. If the query fails, `ListSessions` returns the
nil slice and the error of the query. -/
theorem C8_decode_or_query_failure (d : Database) (s : Server) :
    (∀ (fe : FindEnv) (i : Nat) (err : Err),
      fe.fault = none → i < (sessionsOf d s).length →
      (∀ j, j < i → fe.nextFault j = none ∧ fe.decodeFault j = none) →
      fe.nextFault i = none → fe.decodeFault i = some err →
      (ListSessions d s fe).2 = ([], some err)) ∧
    (∀ (fe : FindEnv) (err : Err),
      fe.fault = some err → (ListSessions d s fe).2 = ([], some err)) := by
  constructor
  · intro fe i err hq hi hprev hnext hdec
    have hloop := listLoop_decode_fails fe err (sessionsOf d s) i 0 [] hi
      (by intro j hj; simpa using hprev j hj) (by simpa using hnext) (by simpa using hdec)
    unfold sessionsOf at hloop
    simp [ListSessions, find, hq, filter_matches_nil, hloop]
  · intro fe err hq
    simp [ListSessions, find, hq]

/-- C8 at concrete inputs: sessions `s0`, `s1`, `s1` with a decode failure at
record number 1, and with a failing query. -/
theorem C8_decode_or_query_failure_witness :
    (ListSessions exampleDb exampleServer decodeFailsAtOne).2
      = ([], some ⟨"bson: invalid document length"⟩) ∧
    (ListSessions exampleDb exampleServer queryFails).2
      = ([], some ⟨"server selection timeout"⟩) :=
  ⟨(C8_decode_or_query_failure exampleDb exampleServer).1 decodeFailsAtOne 1
      ⟨"bson: invalid document length"⟩ rfl (by decide) (by decide) rfl rfl,
   (C8_decode_or_query_failure exampleDb exampleServer).2 queryFails
      ⟨"server selection timeout"⟩ rfl⟩

/-! ## C9: errors of the round trips -/

/-- The error checks the adapter does make: a failing insert, update or
delete round trip, a failing query and a failing decode are each returned to
the caller as they are. -/
theorem checked_errors_surface (d : Database) (s : Server) (err : Err) :
    (∀ now oid sid ph url ua addr,
      (CreateSession d s now ⟨oid, some err⟩ sid ph url ua addr).2 = some err) ∧
    (∀ sid v, (SetSessionUsername d s (some err) sid v).2 = some err) ∧
    (∀ sid v, (SetSessionPassword d s (some err) sid v).2 = some err) ∧
    (∀ sid, (DeleteSession d s (some err) sid).2 = some err) ∧
    (∀ nf df, (ListSessions d s ⟨some err, nf, df⟩).2.2 = some err) := by
  refine ⟨?_, ?_, ?_, ?_, ?_⟩
  · intros; simp [CreateSession, insertOne]
  · intros; simp [SetSessionUsername, updateOne]
  · intros; simp [SetSessionPassword, updateOne]
  · intros; simp [DeleteSession, deleteOne]
  · intros; simp [ListSessions, find]

theorem listLoop_next_fails (e : FindEnv) (err : Err) (l : List M) :
    ∀ (n i : Nat) (acc : List M), n < l.length →
      (∀ j, j < n → e.nextFault (i + j) = none ∧ e.decodeFault (i + j) = none) →
      e.nextFault (i + n) = some err →
      listLoop e i l acc = (acc ++ l.take n, none) := by
  induction l with
  | nil => intro n i acc hlen; simp at hlen
  | cons a rest ih =>
    intro n i acc hlen hprev hnext
    cases n with
    | zero =>
      simp only [Nat.add_zero] at hnext
      simp [listLoop, hnext]
    | succ m =>
      have h0 := hprev 0 (Nat.succ_pos m)
      simp only [Nat.add_zero] at h0
      have hlen1 : m < rest.length := by simpa using hlen
      have hprev1 : ∀ j, j < m →
          e.nextFault (i + 1 + j) = none ∧ e.decodeFault (i + 1 + j) = none := by
        intro j hj
        have := hprev (j + 1) (by omega)
        simpa [Nat.add_assoc, Nat.add_comm 1 j] using this
      have hnext1 : e.nextFault (i + 1 + m) = some err := by
        simpa [Nat.add_assoc, Nat.add_comm 1 m] using hnext
      simp [listLoop, h0.1, h0.2, ih m (i + 1) (acc ++ [a]) hlen1 hprev1 hnext1]

/-- C9, where the code departs from it. If the query and the first `i`
records are fine and the round trip that fetches record number `i` fails,
`ListSessions` returns the first `i` records together with a nil error: the
failure of the cursor is reported as success with a truncated result. -/
theorem C9_cursor_failure_is_dropped (d : Database) (s : Server) (fe : FindEnv) (i : Nat)
    (err : Err) (hq : fe.fault = none) (hi : i < (sessionsOf d s).length)
    (hprev : ∀ j, j < i → fe.nextFault j = none ∧ fe.decodeFault j = none)
    (hnext : fe.nextFault i = some err) :
    (ListSessions d s fe).2 = ((sessionsOf d s).take i, none) := by
  have hloop := listLoop_next_fails fe err (sessionsOf d s) i 0 [] hi
    (by intro j hj; simpa using hprev j hj) (by simpa using hnext)
  unfold sessionsOf at hloop
  simp [ListSessions, find, hq, filter_matches_nil, hloop, sessionsOf]

/-- C9 at the failing input: 102 stored sessions, and the fetch of the second
batch (record number 101) fails with `connection reset by peer`. The caller
gets 101 records and a nil error. -/
theorem C9_cursor_failure_is_dropped_witness :
    secondBatchFails.nextFault 101 = some ⟨"connection reset by peer"⟩ ∧
    (sessionsOf exampleDb manyServer).length = 102 ∧
    (ListSessions exampleDb manyServer secondBatchFails).2.2 = none ∧
    (ListSessions exampleDb manyServer secondBatchFails).2.1.length = 101 := by
  have h := C9_cursor_failure_is_dropped exampleDb manyServer secondBatchFails 101
    ⟨"connection reset by peer"⟩ rfl (by decide)
    (by intro j hj; simp [secondBatchFails]; omega) rfl
  have hlen : (sessionsOf exampleDb manyServer).length = 102 := by decide
  refine ⟨rfl, hlen, by rw [h], ?_⟩
  rw [h]
  simp [hlen]

/-! ## C10: connecting -/

/-- C10. `NewDatabase` returns an adapter and a nil error exactly when the
connect call and the ping both succeed. If the connect call fails it returns
no adapter and that error; if the ping fails it returns no adapter and the
error of the ping. Whenever the error is nil the ping has been made, and the
log line is written exactly when the call succeeds. The adapter returned
refers to the database named by `dbName`, on the client built from `uri`. -/
theorem C10_NewDatabase (e : ConnectEnv) (uri dbName : String) :
    (((NewDatabase e uri dbName).1.1.isSome ∧ (NewDatabase e uri dbName).1.2 = none) ↔
      (e.connectFault = none ∧ e.pingFault = none)) ∧
    (∀ err, e.connectFault = some err → (NewDatabase e uri dbName).1 = (none, some err)) ∧
    (∀ err, e.connectFault = none → e.pingFault = some err →
      (NewDatabase e uri dbName).1 = (none, some err)) ∧
    ((NewDatabase e uri dbName).1.2 = none →
      Event.ping (Context.withTimeout 10) ∈ (NewDatabase e uri dbName).2) ∧
    ((∃ line, Event.log line ∈ (NewDatabase e uri dbName).2) ↔
      (NewDatabase e uri dbName).1.2 = none) ∧
    (∀ a, (NewDatabase e uri dbName).1.1 = some a →
      a.db.name = dbName ∧ a.db.client = a.client ∧ a.client.uri = uri) := by
  obtain ⟨cf, pf⟩ := e
  cases cf with
  | some cerr => simp [NewDatabase]
  | none =>
    cases pf with
    | some perr => simp [NewDatabase]
    | none => simp [NewDatabase, Client.Database]

/-- C10 at concrete inputs: a failing ping after a successful connect. -/
theorem C10_NewDatabase_witness :
    (NewDatabase ⟨none, some ⟨"context deadline exceeded"⟩⟩ "mongodb://localhost" "evil").1
      = (none, some ⟨"context deadline exceeded"⟩) :=
  (C10_NewDatabase ⟨none, some ⟨"context deadline exceeded"⟩⟩ "mongodb://localhost" "evil").2.2.1
    ⟨"context deadline exceeded"⟩ rfl rfl

end database
